import Mathlib

/-!
Verification of the veth-util library (src/lib.rs): a shallow embedding of
the veth pair provisioning and teardown code, with theorems about its
error handling, lifecycle and ordering behavior.

The kernel netlink channel, the tokio runtime constructor and the
mac-address lookup service are external collaborators of the code under
verification; they are modelled as a deterministic oracle (`World`) giving
the response of each primitive request.  Rust computations that may return
`Ok`, return `Err` (an `anyhow::Result`), or terminate the program through
`expect`/panic are modelled by the three-constructor type `Outcome`.
Every kernel-channel request and mac lookup that the code issues is
recorded in an event trace, so that ordering and exactly-once properties
can be stated.
-/

namespace VethUtil

/-- An error produced by the rtnetlink channel (treated as opaque by the
code under verification; only its identity matters). -/
structure ChannelError where
  msg : String
  deriving DecidableEq, Repr

/-- Result of a Rust computation: normal return (`ok`), an `Err` value of an
`anyhow::Result` (`error`), or abnormal termination via `expect`/panic
(`abort`, carrying the panic message). -/
inductive Outcome (ε α : Type) where
  | ok (a : α)
  | error (e : ε)
  | abort (msg : String)
  deriving DecidableEq, Repr

/-- True exactly when the outcome is an `Err` value returned to the caller. -/
def Outcome.isError {ε α : Type} : Outcome ε α → Bool
  | .error _ => true
  | _ => false

/-- True exactly when the outcome is an abnormal termination (panic). -/
def Outcome.isAbort {ε α : Type} : Outcome ε α → Bool
  | .abort _ => true
  | _ => false

/-- The external world: deterministic responses of every collaborator the
code talks to.

* `runtimeOk` — whether `tokio::runtime::Runtime::new()` succeeds (lib.rs:163);
* `newConnectionOk` — whether `rtnetlink::new_connection()` succeeds (lib.rs:98);
* `addVeth a b` — response to the veth pair creation request (lib.rs:101-106);
* `getLink name` — head of the get-link-by-name response stream
  (lib.rs:81-87): a channel error, no message, or a message whose header
  carries the interface index;
* `setUp index` — response to the set-link-up request (lib.rs:94);
* `del index` — response to the delete-link request (lib.rs:77);
* `macByName name` — result of `mac_address_by_name` (lib.rs:121,134):
  an error, no address, or the 6 address bytes. -/
structure World where
  runtimeOk : Bool
  newConnectionOk : Bool
  addVeth : String → String → Except ChannelError Unit
  getLink : String → Except ChannelError (Option Nat)
  setUp : Nat → Except ChannelError Unit
  del : Nat → Except ChannelError Unit
  macByName : String → Except String (Option (List Nat))

/-- One request issued to an external collaborator, as recorded in the
trace: pair creation, index resolution, activation, mac lookup, deletion. -/
inductive Event where
  | addVeth (dev1_ifname dev2_ifname : String)
  | getIndex (name : String)
  | setUp (index : Nat)
  | getMac (name : String)
  | del (index : Nat)
  deriving DecidableEq, Repr

/-- One endpoint descriptor (struct `VethLink`, lib.rs:27-31): interface
name, kernel-assigned index, 6-byte hardware address. -/
structure VethLink where
  ifname : String
  index : Nat
  mac_addr : List Nat
  deriving DecidableEq, Repr

/-- The configuration (struct `VethConfig`, lib.rs:48-51): the two endpoint
names. -/
structure VethConfig where
  dev1_ifname : String
  dev2_ifname : String
  deriving DecidableEq, Repr

/-- `VethConfig::new` (lib.rs:54-56): stores the two given names. -/
def VethConfig.new (dev1_ifname dev2_ifname : String) : VethConfig :=
  ⟨dev1_ifname, dev2_ifname⟩

/-- `Default for VethConfig` (lib.rs:59-66). -/
def VethConfig.default : VethConfig :=
  ⟨"veth0", "veth1"⟩

/-- The link pair handle (struct `VethPair`, lib.rs:8-14), restricted to its
observable data: the two endpoint descriptors.  (The connection handle, the
background task handle and the runtime carry no observable data; their
behavior lives in `World`.) -/
structure VethPair where
  dev1 : VethLink
  dev2 : VethLink
  deriving DecidableEq, Repr

/-- An error value produced during setup: a wrapped channel error
(propagated with `?`), or one of the two `bail!` cases of the mac lookup
(lib.rs:126, 130). -/
inductive SetupError where
  | channel (e : ChannelError)
  | noMacAddr
  | macLookupError
  deriving DecidableEq, Repr

/-- `get_link_index` (lib.rs:80-91): query the link by name; a channel
error is propagated with `?`; an empty stream hits
`.expect("No link with name ... found")` and panics. -/
def get_link_index (w : World) (name : String) : Outcome ChannelError Nat :=
  match w.getLink name with
  | .error e => .error e
  | .ok none => .abort ("No link with name " ++ name ++ " found")
  | .ok (some index) => .ok index

/-- `set_link_up` (lib.rs:93-95). -/
def set_link_up (w : World) (index : Nat) : Except ChannelError Unit :=
  w.setUp index

/-- `delete_link` (lib.rs:76-78). -/
def delete_link (w : World) (index : Nat) : Except ChannelError Unit :=
  w.del index

/-- The mac lookup match block (lib.rs:121-132 and 134-145): `Ok(Some)`
yields the bytes, `Ok(None)` bails with "no mac addr for interface",
`Err` bails with "error retrieving mac addr". -/
def lookup_mac (w : World) (name : String) : Except SetupError (List Nat) :=
  match w.macByName name with
  | .ok (some ma) => .ok ma
  | .ok none => .error .noMacAddr
  | .error _ => .error .macLookupError

/-- `setup_veth_link` (lib.rs:97-160), returning the outcome together with
the trace of requests issued.  Faithful to the source:

* `rtnetlink::new_connection()` failure panics via `expect` (lib.rs:98);
* the creation request error propagates with `?` (lib.rs:106);
* endpoint A's index resolution result is `.expect`-ed (lib.rs:108-114), so
  a channel error there panics, and an empty stream already panicked
  inside `get_link_index`;
* endpoint B's index resolution error propagates with `?` (lib.rs:115);
* both activation errors propagate with `?` (lib.rs:117-118);
* the mac lookups bail with error values (lib.rs:121-145);
* on success both descriptors are built from the configured names, the
  resolved indices and the looked-up addresses (lib.rs:147-159). -/
def setup_veth_link (w : World) (cfg : VethConfig) :
    Outcome SetupError (VethLink × VethLink) × List Event :=
  if w.newConnectionOk then
    let e1 := Event.addVeth cfg.dev1_ifname cfg.dev2_ifname
    match w.addVeth cfg.dev1_ifname cfg.dev2_ifname with
    | .error e => (.error (.channel e), [e1])
    | .ok _ =>
      let e2 := Event.getIndex cfg.dev1_ifname
      match get_link_index w cfg.dev1_ifname with
      | .error _ =>
          (.abort ("Failed to retrieve index, this is not expected. Remove link manually: sudo ip link del "
             ++ cfg.dev1_ifname), [e1, e2])
      | .abort m => (.abort m, [e1, e2])
      | .ok dev1_index =>
        let e3 := Event.getIndex cfg.dev2_ifname
        match get_link_index w cfg.dev2_ifname with
        | .error e => (.error (.channel e), [e1, e2, e3])
        | .abort m => (.abort m, [e1, e2, e3])
        | .ok dev2_index =>
          let e4 := Event.setUp dev1_index
          match set_link_up w dev1_index with
          | .error e => (.error (.channel e), [e1, e2, e3, e4])
          | .ok _ =>
            let e5 := Event.setUp dev2_index
            match set_link_up w dev2_index with
            | .error e => (.error (.channel e), [e1, e2, e3, e4, e5])
            | .ok _ =>
              let e6 := Event.getMac cfg.dev1_ifname
              match lookup_mac w cfg.dev1_ifname with
              | .error se => (.error se, [e1, e2, e3, e4, e5, e6])
              | .ok mac1 =>
                let e7 := Event.getMac cfg.dev2_ifname
                match lookup_mac w cfg.dev2_ifname with
                | .error se => (.error se, [e1, e2, e3, e4, e5, e6, e7])
                | .ok mac2 =>
                  (.ok (⟨cfg.dev1_ifname, dev1_index, mac1⟩,
                        ⟨cfg.dev2_ifname, dev2_index, mac2⟩),
                   [e1, e2, e3, e4, e5, e6, e7])
  else (.abort "failed to create  rtnetlink connection", [])

/-- `add_veth_link` (lib.rs:162-170): build the runtime (panicking via
`expect` on failure), block on `setup_veth_link`, and on success assemble
the `VethPair` from the two descriptors. -/
def add_veth_link (w : World) (cfg : VethConfig) :
    Outcome SetupError VethPair × List Event :=
  if w.runtimeOk then
    match setup_veth_link w cfg with
    | (.ok (dev1, dev2), tr) => (.ok ⟨dev1, dev2⟩, tr)
    | (.error e, tr) => (.error e, tr)
    | (.abort m, tr) => (.abort m, tr)
  else (.abort "failed to build tokio runtime", [])

/-- `Drop for VethPair` (lib.rs:68-74): block on `delete_link` at endpoint
A's index and `expect` the result, panicking with "failed to delete link"
on failure.  The deletion request is issued unconditionally, once. -/
def drop_veth_pair (w : World) (p : VethPair) : Outcome ChannelError Unit × List Event :=
  match delete_link w p.dev1.index with
  | .ok _ => (.ok (), [Event.del p.dev1.index])
  | .error _ => (.abort "failed to delete link", [Event.del p.dev1.index])

/-- True exactly on deletion events. -/
def isDel : Event → Bool
  | .del _ => true
  | _ => false

/-- The indices carried by the deletion events of a trace, in order. -/
def delIndices (tr : List Event) : List Nat :=
  tr.filterMap fun e =>
    match e with
    | .del i => some i
    | _ => none

/-- The position of an event's operation in the provisioning sequence:
creation, then index resolution, then activation, then address lookup,
then deletion. -/
def phase : Event → Nat
  | .addVeth _ _ => 0
  | .getIndex _ => 1
  | .setUp _ => 2
  | .getMac _ => 3
  | .del _ => 4

/-- A world in which every collaborator succeeds: indices 7 for `veth0`
and 8 for every other name, fixed mac addresses. -/
def happyWorld : World where
  runtimeOk := true
  newConnectionOk := true
  addVeth := fun _ _ => .ok ()
  getLink := fun n => .ok (some (if n = "veth0" then 7 else 8))
  setUp := fun _ => .ok ()
  del := fun _ => .ok ()
  macByName := fun n =>
    .ok (some (if n = "veth0" then [2, 0, 0, 0, 0, 1] else [2, 0, 0, 0, 0, 2]))

/-- A world in which the tokio runtime cannot be built. -/
def noRuntimeWorld : World :=
  { happyWorld with runtimeOk := false }

/-- A world in which the rtnetlink connection cannot be opened. -/
def noConnWorld : World :=
  { happyWorld with newConnectionOk := false }

/-- A world in which no interface is ever found by name. -/
def noLinkWorld : World :=
  { happyWorld with getLink := fun _ => .ok none }

/-- A world in which every deletion request fails. -/
def delFailWorld : World :=
  { happyWorld with del := fun _ => .error ⟨"EPERM"⟩ }

/-- The pair that `add_veth_link` returns in `happyWorld` on the default
configuration. -/
def happyPair : VethPair :=
  ⟨⟨"veth0", 7, [2, 0, 0, 0, 0, 1]⟩, ⟨"veth1", 8, [2, 0, 0, 0, 0, 2]⟩⟩

/-- Characterization of a successful `setup_veth_link` run: every
collaborator call along the way succeeded, the descriptors carry exactly
the configured names and the values the collaborators reported, and the
trace is the full seven-request sequence. -/
theorem setup_ok_spec (w : World) (cfg : VethConfig) (d1 d2 : VethLink)
    (h : (setup_veth_link w cfg).1 = .ok (d1, d2)) :
    w.newConnectionOk = true ∧
    w.addVeth cfg.dev1_ifname cfg.dev2_ifname = .ok () ∧
    w.getLink cfg.dev1_ifname = .ok (some d1.index) ∧
    w.getLink cfg.dev2_ifname = .ok (some d2.index) ∧
    w.setUp d1.index = .ok () ∧
    w.setUp d2.index = .ok () ∧
    w.macByName cfg.dev1_ifname = .ok (some d1.mac_addr) ∧
    w.macByName cfg.dev2_ifname = .ok (some d2.mac_addr) ∧
    d1.ifname = cfg.dev1_ifname ∧ d2.ifname = cfg.dev2_ifname ∧
    (setup_veth_link w cfg).2 =
      [Event.addVeth cfg.dev1_ifname cfg.dev2_ifname,
       Event.getIndex cfg.dev1_ifname, Event.getIndex cfg.dev2_ifname,
       Event.setUp d1.index, Event.setUp d2.index,
       Event.getMac cfg.dev1_ifname, Event.getMac cfg.dev2_ifname] := by
  by_cases hc : w.newConnectionOk
  · cases hadd : w.addVeth cfg.dev1_ifname cfg.dev2_ifname with
    | error e => simp [setup_veth_link, hc, hadd] at h
    | ok u =>
      cases u
      cases hg1 : w.getLink cfg.dev1_ifname with
      | error e => simp [setup_veth_link, get_link_index, hc, hadd, hg1] at h
      | ok og =>
        cases og with
        | none => simp [setup_veth_link, get_link_index, hc, hadd, hg1] at h
        | some i1 =>
          cases hg2 : w.getLink cfg.dev2_ifname with
          | error e =>
            simp [setup_veth_link, get_link_index, hc, hadd, hg1, hg2] at h
          | ok og2 =>
            cases og2 with
            | none =>
              simp [setup_veth_link, get_link_index, hc, hadd, hg1, hg2] at h
            | some i2 =>
              cases hu1 : w.setUp i1 with
              | error e =>
                simp [setup_veth_link, get_link_index, set_link_up, hc, hadd,
                  hg1, hg2, hu1] at h
              | ok v1 =>
                cases v1
                cases hu2 : w.setUp i2 with
                | error e =>
                  simp [setup_veth_link, get_link_index, set_link_up, hc, hadd,
                    hg1, hg2, hu1, hu2] at h
                | ok v2 =>
                  cases v2
                  cases hm1 : w.macByName cfg.dev1_ifname with
                  | error e =>
                    simp [setup_veth_link, get_link_index, set_link_up,
                      lookup_mac, hc, hadd, hg1, hg2, hu1, hu2, hm1] at h
                  | ok om1 =>
                    cases om1 with
                    | none =>
                      simp [setup_veth_link, get_link_index, set_link_up,
                        lookup_mac, hc, hadd, hg1, hg2, hu1, hu2, hm1] at h
                    | some mac1 =>
                      cases hm2 : w.macByName cfg.dev2_ifname with
                      | error e =>
                        simp [setup_veth_link, get_link_index, set_link_up,
                          lookup_mac, hc, hadd, hg1, hg2, hu1, hu2, hm1, hm2] at h
                      | ok om2 =>
                        cases om2 with
                        | none =>
                          simp [setup_veth_link, get_link_index, set_link_up,
                            lookup_mac, hc, hadd, hg1, hg2, hu1, hu2, hm1,
                            hm2] at h
                        | some mac2 =>
                          simp [setup_veth_link, get_link_index, set_link_up,
                            lookup_mac, hc, hadd, hg1, hg2, hu1, hu2, hm1,
                            hm2] at h ⊢
                          obtain ⟨h1, h2⟩ := h
                          subst h1
                          subst h2
                          simp [hc, hadd, hg1, hg2, hu1, hu2, hm1, hm2]
  · simp [setup_veth_link, hc] at h

/-- A successful `add_veth_link` run means the runtime was built, setup
succeeded on the two descriptors of the returned pair, and the trace is
setup's trace. -/
theorem add_ok_spec (w : World) (cfg : VethConfig) (p : VethPair)
    (h : (add_veth_link w cfg).1 = .ok p) :
    w.runtimeOk = true ∧
    (setup_veth_link w cfg).1 = .ok (p.dev1, p.dev2) ∧
    (add_veth_link w cfg).2 = (setup_veth_link w cfg).2 := by
  by_cases hr : w.runtimeOk
  · refine ⟨hr, ?_⟩
    rcases hs : setup_veth_link w cfg with ⟨r, tr⟩
    cases r with
    | ok a =>
      obtain ⟨d1, d2⟩ := a
      simp [add_veth_link, hr, hs] at h ⊢
      subst h
      simp
    | error e => simp [add_veth_link, hr, hs] at h
    | abort m => simp [add_veth_link, hr, hs] at h
  · simp [add_veth_link, hr] at h

/-- Whatever the collaborators answer, the requests recorded by
`setup_veth_link` are issued in nondecreasing phase order: creation, then
index resolution, then activation, then address lookup. -/
theorem setup_trace_phases (w : World) (cfg : VethConfig) :
    List.Pairwise (fun a b => phase a ≤ phase b) (setup_veth_link w cfg).2 := by
  by_cases hc : w.newConnectionOk
  · cases hadd : w.addVeth cfg.dev1_ifname cfg.dev2_ifname with
    | error e => simp [setup_veth_link, hc, hadd, phase]
    | ok u =>
      cases u
      cases hg1 : w.getLink cfg.dev1_ifname with
      | error e => simp [setup_veth_link, get_link_index, hc, hadd, hg1, phase]
      | ok og =>
        cases og with
        | none => simp [setup_veth_link, get_link_index, hc, hadd, hg1, phase]
        | some i1 =>
          cases hg2 : w.getLink cfg.dev2_ifname with
          | error e =>
            simp [setup_veth_link, get_link_index, hc, hadd, hg1, hg2, phase]
          | ok og2 =>
            cases og2 with
            | none =>
              simp [setup_veth_link, get_link_index, hc, hadd, hg1, hg2, phase]
            | some i2 =>
              cases hu1 : w.setUp i1 with
              | error e =>
                simp [setup_veth_link, get_link_index, set_link_up, hc, hadd,
                  hg1, hg2, hu1, phase]
              | ok v1 =>
                cases v1
                cases hu2 : w.setUp i2 with
                | error e =>
                  simp [setup_veth_link, get_link_index, set_link_up, hc, hadd,
                    hg1, hg2, hu1, hu2, phase]
                | ok v2 =>
                  cases v2
                  cases hm1 : w.macByName cfg.dev1_ifname with
                  | error e =>
                    simp [setup_veth_link, get_link_index, set_link_up,
                      lookup_mac, hc, hadd, hg1, hg2, hu1, hu2, hm1, phase]
                  | ok om1 =>
                    cases om1 with
                    | none =>
                      simp [setup_veth_link, get_link_index, set_link_up,
                        lookup_mac, hc, hadd, hg1, hg2, hu1, hu2, hm1, phase]
                    | some mac1 =>
                      cases hm2 : w.macByName cfg.dev2_ifname with
                      | error e =>
                        simp [setup_veth_link, get_link_index, set_link_up,
                          lookup_mac, hc, hadd, hg1, hg2, hu1, hu2, hm1, hm2,
                          phase]
                      | ok om2 =>
                        cases om2 with
                        | none =>
                          simp [setup_veth_link, get_link_index, set_link_up,
                            lookup_mac, hc, hadd, hg1, hg2, hu1, hu2, hm1,
                            hm2, phase]
                        | some mac2 =>
                          simp [setup_veth_link, get_link_index, set_link_up,
                            lookup_mac, hc, hadd, hg1, hg2, hu1, hu2, hm1,
                            hm2, phase]
  · simp [setup_veth_link, hc]

/-- `setup_veth_link` never issues a deletion request, whatever the
collaborators answer. -/
theorem setup_trace_no_del (w : World) (cfg : VethConfig) :
    ∀ e ∈ (setup_veth_link w cfg).2, isDel e = false := by
  by_cases hc : w.newConnectionOk
  · cases hadd : w.addVeth cfg.dev1_ifname cfg.dev2_ifname with
    | error e => simp [setup_veth_link, hc, hadd, isDel]
    | ok u =>
      cases u
      cases hg1 : w.getLink cfg.dev1_ifname with
      | error e => simp [setup_veth_link, get_link_index, hc, hadd, hg1, isDel]
      | ok og =>
        cases og with
        | none => simp [setup_veth_link, get_link_index, hc, hadd, hg1, isDel]
        | some i1 =>
          cases hg2 : w.getLink cfg.dev2_ifname with
          | error e =>
            simp [setup_veth_link, get_link_index, hc, hadd, hg1, hg2, isDel]
          | ok og2 =>
            cases og2 with
            | none =>
              simp [setup_veth_link, get_link_index, hc, hadd, hg1, hg2, isDel]
            | some i2 =>
              cases hu1 : w.setUp i1 with
              | error e =>
                simp [setup_veth_link, get_link_index, set_link_up, hc, hadd,
                  hg1, hg2, hu1, isDel]
              | ok v1 =>
                cases v1
                cases hu2 : w.setUp i2 with
                | error e =>
                  simp [setup_veth_link, get_link_index, set_link_up, hc, hadd,
                    hg1, hg2, hu1, hu2, isDel]
                | ok v2 =>
                  cases v2
                  cases hm1 : w.macByName cfg.dev1_ifname with
                  | error e =>
                    simp [setup_veth_link, get_link_index, set_link_up,
                      lookup_mac, hc, hadd, hg1, hg2, hu1, hu2, hm1, isDel]
                  | ok om1 =>
                    cases om1 with
                    | none =>
                      simp [setup_veth_link, get_link_index, set_link_up,
                        lookup_mac, hc, hadd, hg1, hg2, hu1, hu2, hm1, isDel]
                    | some mac1 =>
                      cases hm2 : w.macByName cfg.dev2_ifname with
                      | error e =>
                        simp [setup_veth_link, get_link_index, set_link_up,
                          lookup_mac, hc, hadd, hg1, hg2, hu1, hu2, hm1, hm2,
                          isDel]
                      | ok om2 =>
                        cases om2 with
                        | none =>
                          simp [setup_veth_link, get_link_index, set_link_up,
                            lookup_mac, hc, hadd, hg1, hg2, hu1, hu2, hm1,
                            hm2, isDel]
                        | some mac2 =>
                          simp [setup_veth_link, get_link_index, set_link_up,
                            lookup_mac, hc, hadd, hg1, hg2, hu1, hu2, hm1,
                            hm2, isDel]
  · simp [setup_veth_link, hc]

/-- The trace of `add_veth_link` is exactly the trace of
`setup_veth_link` (the runtime-construction failure issues no request). -/
theorem add_trace_eq (w : World) (cfg : VethConfig) :
    (add_veth_link w cfg).2 = (setup_veth_link w cfg).2 ∨
      (add_veth_link w cfg).2 = [] := by
  by_cases hr : w.runtimeOk
  · left
    rcases hs : setup_veth_link w cfg with ⟨r, tr⟩
    cases r with
    | ok a =>
      obtain ⟨d1, d2⟩ := a
      simp [add_veth_link, hr, hs]
    | error e => simp [add_veth_link, hr, hs]
    | abort m => simp [add_veth_link, hr, hs]
  · right
    simp [add_veth_link, hr]

/-- Every trace whose events are all non-deletions has no deletion indices. -/
theorem delIndices_eq_nil (tr : List Event) (h : ∀ e ∈ tr, isDel e = false) :
    delIndices tr = [] := by
  induction tr with
  | nil => rfl
  | cons e tl ih =>
    have he := h e (List.mem_cons_self e tl)
    have htl := ih fun x hx => h x (List.mem_cons_of_mem e hx)
    cases e <;> simp_all [isDel, delIndices]

/-- Claim C1 counterexample: when the runtime cannot be built, provisioning
fails without returning an error value — it aborts (panics), so the
claimed dichotomy "succeeds with a full pair, or fails and returns an
error" does not hold as stated. -/
theorem C1_counterexample :
    (add_veth_link noRuntimeWorld VethConfig.default).1 =
        .abort "failed to build tokio runtime" ∧
      Outcome.isError (add_veth_link noRuntimeWorld VethConfig.default).1 = false :=
  ⟨rfl, rfl⟩

/-- Claim C1 (amended): provisioning either succeeds and returns a pair
whose two endpoint descriptors are fully populated — names equal to the
configured names, index and hardware address equal to the values the
collaborators reported — or fails (by an error result or by aborting) and
no pair value is produced; no partially initialized pair is ever returned.
The `Outcome` type makes "no pair on failure" structural; this theorem is
the non-structural half: any returned pair is fully populated. -/
theorem C1_all_or_nothing (w : World) (cfg : VethConfig) (p : VethPair)
    (h : (add_veth_link w cfg).1 = .ok p) :
    p.dev1.ifname = cfg.dev1_ifname ∧ p.dev2.ifname = cfg.dev2_ifname ∧
    w.getLink cfg.dev1_ifname = .ok (some p.dev1.index) ∧
    w.getLink cfg.dev2_ifname = .ok (some p.dev2.index) ∧
    w.macByName cfg.dev1_ifname = .ok (some p.dev1.mac_addr) ∧
    w.macByName cfg.dev2_ifname = .ok (some p.dev2.mac_addr) := by
  obtain ⟨hr, hs, htr⟩ := add_ok_spec w cfg p h
  obtain ⟨_, _, h3, h4, _, _, h7, h8, h9, h10, _⟩ :=
    setup_ok_spec w cfg p.dev1 p.dev2 hs
  exact ⟨h9, h10, h3, h4, h7, h8⟩

/-- Claim C1 witness: in the all-success world the returned pair is fully
populated with the reported values. -/
theorem C1_witness :
    (add_veth_link happyWorld VethConfig.default).1 = .ok happyPair ∧
      (happyPair.dev1.ifname = VethConfig.default.dev1_ifname ∧
       happyPair.dev2.ifname = VethConfig.default.dev2_ifname ∧
       happyWorld.getLink VethConfig.default.dev1_ifname = .ok (some happyPair.dev1.index) ∧
       happyWorld.getLink VethConfig.default.dev2_ifname = .ok (some happyPair.dev2.index) ∧
       happyWorld.macByName VethConfig.default.dev1_ifname = .ok (some happyPair.dev1.mac_addr) ∧
       happyWorld.macByName VethConfig.default.dev2_ifname = .ok (some happyPair.dev2.mac_addr)) :=
  ⟨rfl, C1_all_or_nothing happyWorld VethConfig.default happyPair rfl⟩

/-- Claim C2: over a pair's lifetime exactly one deletion request is
issued, and it is issued at end-of-life: provisioning issues none
(whatever the collaborators answer), and the drop handler issues exactly
one, unconditionally.  The only operations on a live pair are the `dev1`
and `dev2` accessors, which are pure projections issuing no request; the
drop handler runs once and its single deletion is its entire trace. -/
theorem C2_delete_exactly_once_at_drop (w wd : World) (cfg : VethConfig)
    (p : VethPair) :
    (add_veth_link w cfg).2.countP (fun e => isDel e) = 0 ∧
    (drop_veth_pair wd p).2.countP (fun e => isDel e) = 1 := by
  constructor
  · rw [List.countP_eq_zero]
    intro e he
    rcases add_trace_eq w cfg with h | h
    · rw [h] at he
      simp [setup_trace_no_del w cfg e he]
    · rw [h] at he
      simp at he
  · cases hd : wd.del p.dev1.index with
    | error e => simp [drop_veth_pair, delete_link, hd, isDel]
    | ok u => cases u; simp [drop_veth_pair, delete_link, hd, isDel]

/-- Claim C3 counterexample: when no interface is found by name, index
resolution does not return an error to the caller — provisioning aborts
(panics) via the `expect` inside `get_link_index`. -/
theorem C3_counterexample :
    (add_veth_link noLinkWorld VethConfig.default).1 =
        .abort "No link with name veth0 found" ∧
      Outcome.isError (add_veth_link noLinkWorld VethConfig.default).1 = false :=
  ⟨rfl, rfl⟩

/-- Claim C3 (amended): when index resolution finds no live interface with
the requested name, provisioning aborts (panics) rather than returning an
error, for both endpoints; a channel error during endpoint A's resolution
likewise aborts (the call-site `expect`); only a channel error during
endpoint B's resolution is returned to the caller as an error value. -/
theorem C3_resolution_failure_behavior (w : World) (cfg : VethConfig)
    (hr : w.runtimeOk = true) (hc : w.newConnectionOk = true)
    (hadd : w.addVeth cfg.dev1_ifname cfg.dev2_ifname = .ok ()) :
    (w.getLink cfg.dev1_ifname = .ok none →
      (add_veth_link w cfg).1 =
        .abort ("No link with name " ++ cfg.dev1_ifname ++ " found")) ∧
    (∀ e : ChannelError, w.getLink cfg.dev1_ifname = .error e →
      (add_veth_link w cfg).1 =
        .abort ("Failed to retrieve index, this is not expected. Remove link manually: sudo ip link del "
          ++ cfg.dev1_ifname)) ∧
    (∀ i1 : Nat, w.getLink cfg.dev1_ifname = .ok (some i1) →
      w.getLink cfg.dev2_ifname = .ok none →
      (add_veth_link w cfg).1 =
        .abort ("No link with name " ++ cfg.dev2_ifname ++ " found")) ∧
    (∀ (i1 : Nat) (e : ChannelError), w.getLink cfg.dev1_ifname = .ok (some i1) →
      w.getLink cfg.dev2_ifname = .error e →
      (add_veth_link w cfg).1 = .error (.channel e)) := by
  refine ⟨fun h1 => ?_, fun e h1 => ?_, fun i1 h1 h2 => ?_, fun i1 e h1 h2 => ?_⟩ <;>
    simp [add_veth_link, setup_veth_link, get_link_index, hr, hc, hadd, h1]
  · simp [h2]
  · simp [h2]

/-- Claim C3 witness: instantiating the not-found case at the world where
no interface resolves. -/
theorem C3_witness :
    noLinkWorld.getLink VethConfig.default.dev1_ifname = .ok none ∧
      (add_veth_link noLinkWorld VethConfig.default).1 =
        .abort ("No link with name " ++ VethConfig.default.dev1_ifname ++ " found") :=
  ⟨rfl,
    (C3_resolution_failure_behavior noLinkWorld VethConfig.default rfl rfl rfl).1 rfl⟩

/-- Claim C4 counterexample: a failure to open the rtnetlink connection is
not wrapped as an error result — provisioning aborts (panics) via the
`expect` on `new_connection`. -/
theorem C4_counterexample :
    (add_veth_link noConnWorld VethConfig.default).1 =
        .abort "failed to create  rtnetlink connection" ∧
      Outcome.isError (add_veth_link noConnWorld VethConfig.default).1 = false :=
  ⟨rfl, rfl⟩

/-- Claim C4 (amended): a failure to open the kernel channel connection
aborts the program (panic) rather than being returned; channel failures
from the pair-creation request, from endpoint B's index resolution (see
C3), and from either activation request are wrapped as `SetupError` and
surfaced to the caller as a failed result. -/
theorem C4_channel_failure_behavior (w : World) (cfg : VethConfig)
    (hr : w.runtimeOk = true) :
    (w.newConnectionOk = false →
      (add_veth_link w cfg).1 = .abort "failed to create  rtnetlink connection") ∧
    (∀ e : ChannelError, w.newConnectionOk = true →
      w.addVeth cfg.dev1_ifname cfg.dev2_ifname = .error e →
      (add_veth_link w cfg).1 = .error (.channel e)) ∧
    (∀ (i1 i2 : Nat) (e : ChannelError), w.newConnectionOk = true →
      w.addVeth cfg.dev1_ifname cfg.dev2_ifname = .ok () →
      w.getLink cfg.dev1_ifname = .ok (some i1) →
      w.getLink cfg.dev2_ifname = .ok (some i2) →
      w.setUp i1 = .error e →
      (add_veth_link w cfg).1 = .error (.channel e)) ∧
    (∀ (i1 i2 : Nat) (e : ChannelError), w.newConnectionOk = true →
      w.addVeth cfg.dev1_ifname cfg.dev2_ifname = .ok () →
      w.getLink cfg.dev1_ifname = .ok (some i1) →
      w.getLink cfg.dev2_ifname = .ok (some i2) →
      w.setUp i1 = .ok () → w.setUp i2 = .error e →
      (add_veth_link w cfg).1 = .error (.channel e)) := by
  refine ⟨fun h1 => ?_,
          fun e h1 h2 => ?_,
          fun i1 i2 e h1 h2 h3 h4 h5 => ?_,
          fun i1 i2 e h1 h2 h3 h4 h5 h6 => ?_⟩ <;>
    simp [add_veth_link, setup_veth_link, get_link_index, set_link_up, hr] <;>
    simp_all

/-- Claim C4 witness: instantiating the connection-failure case. -/
theorem C4_witness :
    noConnWorld.newConnectionOk = false ∧
      (add_veth_link noConnWorld VethConfig.default).1 =
        .abort "failed to create  rtnetlink connection" :=
  ⟨rfl, (C4_channel_failure_behavior noConnWorld VethConfig.default rfl).1 rfl⟩

/-- Claim C5: if the deletion request issued by the drop handler fails,
the program aborts (panics with "failed to delete link"); the failure is
never returned as a recoverable error value. -/
theorem C5_teardown_failure_panics (w : World) (p : VethPair) (e : ChannelError)
    (h : w.del p.dev1.index = .error e) :
    (drop_veth_pair w p).1 = .abort "failed to delete link" ∧
    Outcome.isError (drop_veth_pair w p).1 = false := by
  simp [drop_veth_pair, delete_link, h, Outcome.isError]

/-- Claim C5 witness: in the world where every deletion fails, dropping
the pair aborts. -/
theorem C5_witness :
    delFailWorld.del happyPair.dev1.index = .error ⟨"EPERM"⟩ ∧
      ((drop_veth_pair delFailWorld happyPair).1 = .abort "failed to delete link" ∧
       Outcome.isError (drop_veth_pair delFailWorld happyPair).1 = false) :=
  ⟨rfl, C5_teardown_failure_panics delFailWorld happyPair ⟨"EPERM"⟩ rfl⟩

/-- Claim C6: the deletion request issued at teardown carries exactly
endpoint A's (`dev1`'s) index; provisioning issues no deletion at all, so
endpoint B's index is never used in any deletion request. -/
theorem C6_delete_uses_dev1_index (w wd : World) (cfg : VethConfig)
    (p : VethPair) :
    delIndices (add_veth_link w cfg).2 = [] ∧
    delIndices (drop_veth_pair wd p).2 = [p.dev1.index] := by
  constructor
  · rcases add_trace_eq w cfg with h | h
    · rw [h]
      exact delIndices_eq_nil _ (setup_trace_no_del w cfg)
    · rw [h]
      rfl
  · cases hd : wd.del p.dev1.index with
    | error e => simp [drop_veth_pair, delete_link, hd, delIndices]
    | ok u => cases u; simp [drop_veth_pair, delete_link, hd, delIndices]

/-- Claim C7: within one provisioning call the recorded requests are in
strictly sequential phase order — creation, then index resolutions, then
activations, then address lookups — whatever the collaborators answer;
and on success the trace is exactly the seven requests in that order, so
every later step is issued only after all earlier steps succeeded. -/
theorem C7_strict_request_order (w : World) (cfg : VethConfig) :
    List.Pairwise (fun a b => phase a ≤ phase b) (add_veth_link w cfg).2 ∧
    (∀ p : VethPair, (add_veth_link w cfg).1 = .ok p →
      (add_veth_link w cfg).2 =
        [Event.addVeth cfg.dev1_ifname cfg.dev2_ifname,
         Event.getIndex cfg.dev1_ifname, Event.getIndex cfg.dev2_ifname,
         Event.setUp p.dev1.index, Event.setUp p.dev2.index,
         Event.getMac cfg.dev1_ifname, Event.getMac cfg.dev2_ifname]) := by
  constructor
  · rcases add_trace_eq w cfg with h | h
    · rw [h]
      exact setup_trace_phases w cfg
    · rw [h]
      exact List.Pairwise.nil
  · intro p h
    obtain ⟨_, hs, htr⟩ := add_ok_spec w cfg p h
    obtain ⟨_, _, _, _, _, _, _, _, _, _, htrace⟩ :=
      setup_ok_spec w cfg p.dev1 p.dev2 hs
    rw [htr, htrace]

/-- Claim C7 witness: the all-success trace is the full ordered sequence. -/
theorem C7_witness :
    (add_veth_link happyWorld VethConfig.default).1 = .ok happyPair ∧
      (add_veth_link happyWorld VethConfig.default).2 =
        [Event.addVeth VethConfig.default.dev1_ifname VethConfig.default.dev2_ifname,
         Event.getIndex VethConfig.default.dev1_ifname,
         Event.getIndex VethConfig.default.dev2_ifname,
         Event.setUp happyPair.dev1.index, Event.setUp happyPair.dev2.index,
         Event.getMac VethConfig.default.dev1_ifname,
         Event.getMac VethConfig.default.dev2_ifname] :=
  ⟨rfl, (C7_strict_request_order happyWorld VethConfig.default).2 happyPair rfl⟩

/-- Claim C8: whenever provisioning succeeds, the first endpoint
descriptor carries exactly the configured first name and the second
descriptor the configured second name. -/
theorem C8_names_match_config (w : World) (cfg : VethConfig) (p : VethPair)
    (h : (add_veth_link w cfg).1 = .ok p) :
    p.dev1.ifname = cfg.dev1_ifname ∧ p.dev2.ifname = cfg.dev2_ifname := by
  obtain ⟨_, hs, _⟩ := add_ok_spec w cfg p h
  obtain ⟨_, _, _, _, _, _, _, _, h9, h10, _⟩ :=
    setup_ok_spec w cfg p.dev1 p.dev2 hs
  exact ⟨h9, h10⟩

/-- Claim C8 witness: the all-success pair carries the default names. -/
theorem C8_witness :
    (add_veth_link happyWorld VethConfig.default).1 = .ok happyPair ∧
      (happyPair.dev1.ifname = VethConfig.default.dev1_ifname ∧
       happyPair.dev2.ifname = VethConfig.default.dev2_ifname) :=
  ⟨rfl, C8_names_match_config happyWorld VethConfig.default happyPair rfl⟩

/-- Claim C9: the default configuration names the endpoints `veth0` and
`veth1`, in that order. -/
theorem C9_default_names :
    VethConfig.default.dev1_ifname = "veth0" ∧
    VethConfig.default.dev2_ifname = "veth1" :=
  ⟨rfl, rfl⟩

/-- Claim C10: `VethConfig.new` is total and validates nothing: for every
pair of strings — empty and identical strings included — it returns a
configuration storing exactly the given names, first as endpoint A's name
and second as endpoint B's name. -/
theorem C10_new_stores_names (dev1_ifname dev2_ifname : String) :
    (VethConfig.new dev1_ifname dev2_ifname).dev1_ifname = dev1_ifname ∧
    (VethConfig.new dev1_ifname dev2_ifname).dev2_ifname = dev2_ifname :=
  ⟨rfl, rfl⟩

end VethUtil
